import Mathlib

/-!
Verification of the BOG_TOOL production-test server
(`src/bog-test-server/main.py`, `src/bog-test-server/schemas.py`) against its
specification.

Shallow embedding conventions:

* `created_at` timestamps are modelled as `Nat` seconds since the UTC epoch
  (the source stores second-precision ISO-8601 strings
  `"YYYY-MM-DDTHH:MM:SSZ"`; for this fixed format SQLite's lexicographic
  TEXT ordering coincides with chronological order, and SQLite's
  `date(created_at)` — calendar-day extraction — is modelled as `t / 86400`).
* SQLite REAL columns that merely pass through (`duration_seconds`) are `ℚ`.
* JSON text blobs stored in TEXT columns (`steps_summary`, `step_results`,
  `test_details`) are modelled by `Blob α`: `Blob.null` is SQL NULL,
  `Blob.ok a` is a well-formed serialization of the value `a`
  (`json.dumps`/`json.loads` round-trip on these structures), and
  `Blob.bad s` is stored text that fails to parse as JSON
  (`json.loads` raises `JSONDecodeError`).
* Python `str.strip()` is `pyStrip` (drop leading/trailing whitespace).
* Query parameters are modelled by `QueryFilter`; a field is `none` when the
  parameter is absent (Python's `if sn:` also treats an empty string as
  absent — the `QueryFilter` fields are the *effective* conditions).
* The viewers map (`_viewers : dict[str, float]`) is an association list in
  insertion order, mirroring Python dict semantics: updating an existing key
  keeps its position, a new key is appended. Heartbeat times are `Int`.
-/

/-- A JSON value, used for the opaque `testDetails : dict[str, Any]` payload
field that the service stores and returns verbatim. -/
inductive JsonVal where
  | str : String → JsonVal
  | num : ℚ → JsonVal
  | jbool : Bool → JsonVal
  | jnull : JsonVal
  | arr : List JsonVal → JsonVal
  | obj : List (String × JsonVal) → JsonVal

/-- A TEXT column holding a serialized JSON blob: SQL NULL, a well-formed
serialization of `a`, or corrupted text that fails to parse. -/
inductive Blob (α : Type) where
  | null : Blob α
  | ok : α → Blob α
  | bad : String → Blob α
deriving Repr

/-- `schemas.StepSummaryItem`: one `{stepId, status}` entry. (`status` is a
plain `str` in the schema; no enum validation is performed.) -/
structure StepItem where
  stepId : String
  status : String
deriving Repr, DecidableEq

/-- `schemas.ProductionTestPayload`: the JSON body of
`POST /api/production-test`, with pydantic defaults applied. -/
structure ProductionTestPayload where
  startTime : Option String := none
  endTime : Option String := none
  durationSeconds : Option ℚ := none
  deviceSerialNumber : String
  deviceName : Option String := none
  deviceFirmwareVersion : Option String := none
  deviceBootloaderVersion : Option String := none
  deviceHardwareRevision : Option String := none
  overallPassed : Bool
  needRetest : Bool := false
  stepsSummary : List StepItem := []
  stepResults : Option (List (String × String)) := none
  testDetails : Option (List (String × JsonVal)) := none

/-- Pydantic validation of `ProductionTestPayload`: the only value-level
constraint is `deviceSerialNumber: str = Field(..., min_length=1)` —
at least one character, with no trimming before the check. -/
def payloadValid (p : ProductionTestPayload) : Bool :=
  1 ≤ p.deviceSerialNumber.length

/-- One row of the `production_tests` table (`main.init_db`). -/
structure Row where
  id : String
  created_at : Nat
  start_time : Option String
  end_time : Option String
  duration_seconds : Option ℚ
  device_serial_number : String
  device_name : Option String
  device_firmware_version : Option String
  device_bootloader_version : Option String
  device_hardware_revision : Option String
  overall_passed : Nat
  need_retest : Nat
  steps_summary : Blob (List StepItem)
  step_results : Blob (List (String × String))
  test_details : Blob (List (String × JsonVal))

/-- Python `str.strip()`: remove leading and trailing whitespace. -/
def pyStrip (s : String) : String :=
  ⟨((s.data.dropWhile Char.isWhitespace).reverse.dropWhile
      Char.isWhitespace).reverse⟩

/-- `main.post_production_test`: build the row inserted for payload `p`.
The server supplies `test_id` (`uuid.uuid4()`) and `created_at`
(`_now_iso()`); `deviceSerialNumber` is stripped, booleans are stored as
`1`/`0`, and the three structured fields are serialized with `json.dumps`
(`None` stays SQL NULL). -/
def post_production_test (p : ProductionTestPayload) (test_id : String)
    (created_at : Nat) : Row :=
  { id := test_id
    created_at := created_at
    start_time := p.startTime
    end_time := p.endTime
    duration_seconds := p.durationSeconds
    device_serial_number := pyStrip p.deviceSerialNumber
    device_name := p.deviceName
    device_firmware_version := p.deviceFirmwareVersion
    device_bootloader_version := p.deviceBootloaderVersion
    device_hardware_revision := p.deviceHardwareRevision
    overall_passed := if p.overallPassed then 1 else 0
    need_retest := if p.needRetest then 1 else 0
    steps_summary := Blob.ok p.stepsSummary
    step_results := match p.stepResults with
      | some d => Blob.ok d
      | none => Blob.null
    test_details := match p.testDetails with
      | some d => Blob.ok d
      | none => Blob.null }

/-- One item of `GET /api/records`' `items` array (`main.row_to_item`). -/
structure Item where
  id : String
  createdAt : Nat
  startTime : Option String
  endTime : Option String
  durationSeconds : Option ℚ
  deviceSerialNumber : String
  deviceName : Option String
  deviceFirmwareVersion : Option String
  deviceBootloaderVersion : Option String
  deviceHardwareRevision : Option String
  overallPassed : Bool
  needRetest : Bool
  stepsSummary : List StepItem
  stepResults : Option (List (String × String))
  testDetails : Option (List (String × JsonVal))

/-- Python truthiness of a TEXT column value: NULL and `""` are falsy. -/
def Blob.truthy : Blob α → Bool
  | Blob.null => false
  | Blob.ok _ => true
  | Blob.bad s => s ≠ ""

/-- `row_to_item`'s decoding of `steps_summary`: skipped when falsy, and a
`JSONDecodeError` is caught (`except ... pass`), so any failure leaves the
initial `[]`. -/
def decodeSteps : Blob (List StepItem) → List StepItem
  | Blob.ok l => l
  | _ => []

/-- `row_to_item`'s decoding of `test_details`: skipped when falsy, and the
surrounding `try`/`except` catches `JSONDecodeError`, leaving `None`. -/
def decodeDetails : Blob (List (String × JsonVal)) →
    Option (List (String × JsonVal))
  | Blob.ok d => some d
  | _ => none

/-- `row_to_item`'s decoding of `step_results`:
`json.loads(r["step_results"]) if r["step_results"] else None` — there is
no `try`/`except` here, so a truthy blob that fails to parse raises and the
whole request fails (`none` result of this function). -/
def decodeStepResults : Blob (List (String × String)) →
    Option (Option (List (String × String)))
  | Blob.null => some none
  | Blob.ok d => some (some d)
  | Blob.bad s => if s = "" then some none else none

/-- `main.row_to_item`: convert a stored row to a response item. `none`
models an uncaught exception escaping the handler (HTTP 500). -/
def row_to_item (r : Row) : Option Item :=
  match decodeStepResults r.step_results with
  | none => none
  | some sr => some
    { id := r.id
      createdAt := r.created_at
      startTime := r.start_time
      endTime := r.end_time
      durationSeconds := r.duration_seconds
      deviceSerialNumber := r.device_serial_number
      deviceName := r.device_name
      deviceFirmwareVersion := r.device_firmware_version
      deviceBootloaderVersion := r.device_bootloader_version
      deviceHardwareRevision := r.device_hardware_revision
      overallPassed := r.overall_passed ≠ 0
      needRetest := r.need_retest ≠ 0
      stepsSummary := decodeSteps r.steps_summary
      stepResults := sr
      testDetails := decodeDetails r.test_details }

/-- SQLite `date(created_at)`: calendar-day extraction, modelled on
epoch-second timestamps as the day number. -/
def dateOf (t : Nat) : Nat := t / 86400

/-- The effective optional query filters `sn`, `date_from`, `date_to`
shared by `/api/summary`, `/api/records` and `/api/export` (a field is
`none` when the parameter is absent or empty, per Python truthiness).
Dates are day numbers, matching the `YYYY-MM-DD` comparison against
`date(created_at)`. -/
structure QueryFilter where
  sn : Option String := none
  date_from : Option Nat := none
  date_to : Option Nat := none

/-- The condition `device_serial_number = ?` with parameter `sn.strip()`. -/
def snMatch (f : QueryFilter) (r : Row) : Bool :=
  match f.sn with
  | none => true
  | some s => r.device_serial_number == pyStrip s

/-- The conditions `date(created_at) >= ?` and `date(created_at) <= ?`. -/
def dateMatch (f : QueryFilter) (r : Row) : Bool :=
  (match f.date_from with
    | none => true
    | some d => decide (d ≤ dateOf r.created_at)) &&
  (match f.date_to with
    | none => true
    | some d => decide (dateOf r.created_at ≤ d))

/-- `get_summary`'s WHERE clause: it always also requires
`device_serial_number IS NOT NULL AND device_serial_number != ''`. -/
def summaryMatches (f : QueryFilter) (r : Row) : Bool :=
  r.device_serial_number ≠ "" && snMatch f r && dateMatch f r

/-- The WHERE clause of `get_records` / `export_csv` (filters only). -/
def recordsMatches (f : QueryFilter) (r : Row) : Bool :=
  snMatch f r && dateMatch f r

/-- SQL `MAX` aggregate over a column (NULL on an empty set). -/
def sqlMax : List Nat → Option Nat
  | [] => none
  | x :: xs => some (xs.foldl max x)

/-- `get_summary`'s latest-per-device join: the subquery groups the rows
satisfying `cond` by `device_serial_number` and takes `MAX(created_at)`;
the outer scan (`FROM production_tests t`, unfiltered in the source) keeps
every row whose `(device_serial_number, created_at)` matches its group's
maximum. NOTE: every row of a group that *ties* on the maximum `created_at`
is kept — the join has no further tie-break. -/
def joinLatest (store : List Row) (cond : Row → Bool) : List Row :=
  store.filter (fun t =>
    sqlMax (((store.filter cond).filter
        (fun x => x.device_serial_number == t.device_serial_number)).map
      (fun x => x.created_at)) == some t.created_at)

/-- Python 3 `round` to an integer: round half to even (banker's rounding),
on the exact rational value. -/
def roundHalfEven (q : ℚ) : ℤ :=
  let f := ⌊q⌋
  if q - f < 1/2 then f
  else if (1:ℚ)/2 < q - f then f + 1
  else if f % 2 = 0 then f else f + 1

/-- Python `round(x, 1)`: round to one decimal place. -/
def pyRound1 (q : ℚ) : ℚ := (roundHalfEven (10 * q) : ℚ) / 10

/-- The `today` sub-object of the `/api/summary` response. -/
structure TodayAgg where
  total : Nat
  passed : Nat
  failed : Nat
  passRatePercent : ℚ

/-- The `/api/summary` response body. -/
structure SummaryOut where
  totalRecords : Nat
  total : Nat
  passed : Nat
  failed : Nat
  passRatePercent : ℚ
  today : TodayAgg

/-- `main.get_summary`: `totalRecords` counts all rows matching the WHERE
clause; `total`/`passed`/`failed` count the rows of the latest-per-device
join; the `today` block repeats the computation with the extra condition
`date(created_at) = today` (server UTC date). `failed = total - passed`
(Python int subtraction; `passed ≤ total` since passed rows are a subset,
so ℕ subtraction agrees). -/
def get_summary (store : List Row) (f : QueryFilter) (today : Nat) : SummaryOut :=
  let cond := summaryMatches f
  let totalRecords := (store.filter cond).length
  let j := joinLatest store cond
  let total := j.length
  let passed := (j.filter (fun r => r.overall_passed == 1)).length
  let condT := fun r => cond r && (dateOf r.created_at == today)
  let jT := joinLatest store condT
  let tTotal := jT.length
  let tPassed := (jT.filter (fun r => r.overall_passed == 1)).length
  { totalRecords := totalRecords
    total := total
    passed := passed
    failed := total - passed
    passRatePercent :=
      if total = 0 then 0 else pyRound1 (100 * (passed : ℚ) / (total : ℚ))
    today :=
      { total := tTotal
        passed := tPassed
        failed := tTotal - tPassed
        passRatePercent :=
          if tTotal = 0 then 0
          else pyRound1 (100 * (tPassed : ℚ) / (tTotal : ℚ)) } }

/-- `ORDER BY created_at DESC` comparison. -/
def createdDescRel (a b : Row) : Prop := b.created_at ≤ a.created_at

instance : DecidableRel createdDescRel := fun a b =>
  inferInstanceAs (Decidable (b.created_at ≤ a.created_at))

instance : IsTotal Row createdDescRel :=
  ⟨fun a b => Nat.le_total b.created_at a.created_at⟩

instance : IsTrans Row createdDescRel :=
  ⟨fun _ _ _ h h' => Nat.le_trans h' h⟩

/-- `ORDER BY created_at DESC` over a row set (a deterministic sort; no
claim depends on the order among rows with equal `created_at`). -/
def sortByCreatedDesc (rs : List Row) : List Row :=
  rs.insertionSort createdDescRel

/-- The `/api/records` response: `items` holds the selected page's rows;
the HTTP layer renders them through `row_to_item` (see `itemsOf`). -/
structure RecordsPage where
  total : Nat
  limit : Nat
  offset : Nat
  items : List Row

/-- The rows selected by `LIMIT ? OFFSET ?` after sorting. -/
def pageRows (store : List Row) (f : QueryFilter) (limit offset : Nat) : List Row :=
  ((sortByCreatedDesc (store.filter (recordsMatches f))).drop offset).take limit

/-- `main.get_records`: count the matching rows, then return one page of
them ordered by `created_at` descending. -/
def get_records (store : List Row) (f : QueryFilter) (limit offset : Nat) :
    RecordsPage :=
  { total := (store.filter (recordsMatches f)).length
    limit := limit
    offset := offset
    items := pageRows store f limit offset }

/-- `[row_to_item(r) for r in rows]`: `none` when some row raises. -/
def itemsOf (rs : List Row) : Option (List Item) := rs.mapM row_to_item

/-- The WHERE condition strings built identically by `get_records` and
`export_csv` (same three conditions, same order: `sn`, `date_from`,
`date_to`). -/
def queryConditions (f : QueryFilter) : List String :=
  (if f.sn.isSome then ["device_serial_number = ?"] else []) ++
  (if f.date_from.isSome then ["date(created_at) >= ?"] else []) ++
  (if f.date_to.isSome then ["date(created_at) <= ?"] else [])

/-- `export_csv`'s clause glue — the source writes
`(" AND " + " AND ".join(conditions)) if conditions else ""`, so with any
condition present the SQL reads `... FROM production_tests AND ...`. -/
def export_where (f : QueryFilter) : String :=
  if queryConditions f = [] then ""
  else " AND " ++ String.intercalate " AND " (queryConditions f)

/-- `get_records`'s clause glue for comparison — the source writes
`(" WHERE " + " AND ".join(conditions)) if conditions else ""`. -/
def records_where (f : QueryFilter) : String :=
  if queryConditions f = [] then ""
  else " WHERE " ++ String.intercalate " AND " (queryConditions f)

/-- What SQLite accepts directly after `FROM production_tests` in these
queries: nothing (the statement continues with `ORDER BY`/end) or a
`WHERE` clause. A fragment starting with ` AND ` is a syntax error
(`sqlite3.OperationalError`). -/
def whereFragmentOk (s : String) : Bool :=
  s = "" || (" WHERE ".data).isPrefixOf s.data

/-- The fixed CSV header row written by `export_csv`. -/
def csvHeader : List String :=
  ["id", "created_at", "start_time", "end_time", "duration_seconds",
   "device_serial_number", "device_name", "device_firmware_version",
   "device_bootloader_version", "device_hardware_revision", "overall_passed",
   "need_retest", "steps_summary", "step_results", "test_details"]

/-- `main.export_csv`: builds its SQL with `export_where`; if the resulting
statement is well-formed it returns the filtered rows ordered by
`created_at` descending (rendered under `csvHeader`), otherwise the
`sqlite3.OperationalError` escapes the handler (HTTP 500). -/
def export_csv (store : List Row) (f : QueryFilter) : Except String (List Row) :=
  if whereFragmentOk (export_where f) then
    Except.ok (sortByCreatedDesc (store.filter (recordsMatches f)))
  else
    Except.error "sqlite3.OperationalError near AND: syntax error"

/-- `main.VIEWER_TIMEOUT_SEC`. -/
def VIEWER_TIMEOUT_SEC : Int := 60

/-- The `_viewers` dict: association list in insertion order (heartbeat
timestamps in seconds). -/
abbrev Viewers := List (String × Int)

/-- `_viewers[ip] = now`: Python dict upsert — an existing key keeps its
position, a new key is appended. -/
def upsertViewer (vs : Viewers) (ip : String) (t : Int) : Viewers :=
  if (vs.lookup ip).isSome then
    vs.map (fun p => if p.1 = ip then (p.1, t) else p)
  else vs ++ [(ip, t)]

/-- Sort key of `sorted(_viewers.keys(), key=lambda k: -_viewers[k])`:
ascending `-timestamp`, i.e. most recent heartbeat first. -/
def recentRel (a b : String × Int) : Prop := b.2 ≤ a.2

instance : DecidableRel recentRel := fun a b =>
  inferInstanceAs (Decidable (b.2 ≤ a.2))

instance : IsTotal (String × Int) recentRel := ⟨fun a b => Int.le_total b.2 a.2⟩

instance : IsTrans (String × Int) recentRel :=
  ⟨fun _ _ _ h h' => Int.le_trans h' h⟩

/-- The `/api/viewers` response (`count`, `ips`) together with the
post-call `_viewers` state. -/
structure ViewersOut where
  viewers : Viewers
  count : Nat
  ips : List String

/-- `main.api_viewers`: upsert the caller's heartbeat, purge entries with
`now - v > VIEWER_TIMEOUT_SEC`, report the remaining count and the first
10 identifiers sorted by most-recent heartbeat. -/
def api_viewers (vs : Viewers) (ip : String) (now : Int) : ViewersOut :=
  let vs1 := upsertViewer vs ip now
  let vs2 := vs1.filter (fun p => decide (now - p.2 ≤ VIEWER_TIMEOUT_SEC))
  { viewers := vs2
    count := vs2.length
    ips := ((vs2.insertionSort recentRel).map Prod.fst).take 10 }

/-! ## Concrete inputs used by counterexamples and witnesses -/

/-- A stored row with all optional fields NULL, for concrete test stores. -/
def mkRow (i sn : String) (t : Nat) (p : Nat) : Row :=
  { id := i, created_at := t, start_time := none, end_time := none,
    duration_seconds := none, device_serial_number := sn, device_name := none,
    device_firmware_version := none, device_bootloader_version := none,
    device_hardware_revision := none, overall_passed := p, need_retest := 0,
    steps_summary := Blob.ok [], step_results := Blob.null,
    test_details := Blob.null }

/-- Two records of the same device sharing the maximum `created_at`
(two uploads within the same second: `created_at` has second precision). -/
def tieStore : List Row := [mkRow "a" "SN1" 5 1, mkRow "b" "SN1" 5 1]

/-- A payload whose `deviceSerialNumber` is a single space: it has length 1,
so pydantic's `min_length=1` accepts it. -/
def spacePayload : ProductionTestPayload :=
  { deviceSerialNumber := " ", overallPassed := true }

/-! ## Claims -/

/-- C1: the summary must count each device once, by a deterministic
tie-break, even when several records of the device share the maximum
`createdAt`. The code has no tie-break: `INNER JOIN` on
`(device_serial_number, MAX(created_at))` keeps every tying row, so on a
store holding two "SN1" records with equal `created_at` the summary
reports `total = 2` and `passed = 2` for a single distinct device. -/
theorem c1_tie_double_count :
    (get_summary tieStore {} 99).total = 2
    ∧ (get_summary tieStore {} 99).passed = 2
    ∧ ((tieStore.map (fun r => r.device_serial_number)).dedup = ["SN1"]) := by
  refine ⟨by decide, by decide, by decide⟩

/-- C2: export with a `date_from` filter later than every record should
return a header-only CSV. The code builds its WHERE clause with
`" AND "` instead of `" WHERE "` (`export_csv`, main.py line 347), so the
statement reads `... FROM production_tests AND date(created_at) >= ?` and
SQLite rejects it: the request fails instead of returning an empty CSV.
Here every stored record is on day 0 and the filter asks for day 999999. -/
theorem c2_export_filter_error :
    export_csv [mkRow "a" "SN1" 5 1] { date_from := some 999999 } =
      Except.error "sqlite3.OperationalError near AND: syntax error"
    ∧ export_csv [mkRow "a" "SN1" 5 1] {} =
      Except.ok [mkRow "a" "SN1" 5 1] := ⟨rfl, rfl⟩

/-- C4 (counterexample): a payload whose serial is a single space passes
validation (`min_length=1` counts the space), and ingestion stores the
stripped serial, which is empty — refuting "no reachable store state
contains a record with an empty deviceSerialNumber". -/
theorem c4_whitespace_serial_stored_empty :
    payloadValid spacePayload = true
    ∧ (post_production_test spacePayload "id1" 0).device_serial_number = ""
      := ⟨rfl, rfl⟩

/-- C4 (amended): ingestion only requires `deviceSerialNumber` to be
non-empty *before* trimming; the stored serial is the trimmed value, and
it is non-empty exactly when the payload serial is not whitespace-only. -/
theorem c4_stored_serial_stripped (p : ProductionTestPayload) (tid : String)
    (t : Nat) (h : payloadValid p = true) :
    (post_production_test p tid t).device_serial_number
        = pyStrip p.deviceSerialNumber
    ∧ (pyStrip p.deviceSerialNumber ≠ "" →
        (post_production_test p tid t).device_serial_number ≠ "") := by
  exact ⟨rfl, fun h' => h'⟩

/-- C4 witness: the amended statement at a concrete payload. -/
theorem c4_stored_serial_stripped_witness :
    payloadValid { deviceSerialNumber := " SN7 ", overallPassed := false } = true
    ∧ ((post_production_test
          { deviceSerialNumber := " SN7 ", overallPassed := false } "w" 3
        ).device_serial_number
          = pyStrip (" SN7 " : String)
      ∧ (pyStrip (" SN7 " : String) ≠ "" →
          (post_production_test
            { deviceSerialNumber := " SN7 ", overallPassed := false } "w" 3
          ).device_serial_number ≠ "")) :=
  ⟨rfl, c4_stored_serial_stripped
    { deviceSerialNumber := " SN7 ", overallPassed := false } "w" 3 rfl⟩

/-- C5: the spec's invariant is `total ≤ totalRecords` with equality iff
every device in the filtered set has exactly one matching record. Because
tying rows all enter the latest-per-device join, equality also holds on a
store where device "SN1" has *two* records (sharing one `created_at`):
`total = totalRecords = 2`, refuting the "only if" direction. -/
theorem c5_tie_equality_anomaly :
    (get_summary tieStore {} 99).total = (get_summary tieStore {} 99).totalRecords
    ∧ ¬ (∀ r ∈ tieStore.filter (summaryMatches {}),
          ((tieStore.filter (summaryMatches {})).filter
            (fun x => x.device_serial_number == r.device_serial_number)).length
              = 1) := by
  refine ⟨by decide, by decide⟩

/-- C9: `passRatePercent` is the guarded formula
`round(100 * passed / total, 1)` when `total > 0` and `0.0` when
`total = 0`, both for the top-level aggregate and for the `today`
sub-aggregate (over its own per-device-latest counts). -/
theorem c9_pass_rate_formula (store : List Row) (f : QueryFilter)
    (today : Nat) :
    ((get_summary store f today).passRatePercent =
      if (get_summary store f today).total = 0 then 0
      else pyRound1 (100 * ((get_summary store f today).passed : ℚ) /
        ((get_summary store f today).total : ℚ)))
    ∧ ((get_summary store f today).today.passRatePercent =
      if (get_summary store f today).today.total = 0 then 0
      else pyRound1 (100 * ((get_summary store f today).today.passed : ℚ) /
        ((get_summary store f today).today.total : ℚ))) := ⟨rfl, rfl⟩

/-- A stored row whose `step_results` TEXT fails to parse as JSON. -/
def badStepResultsRow : Row :=
  { mkRow "bad" "SN1" 5 1 with step_results := Blob.bad "corrupt" }

/-- A stored row whose `steps_summary` and `test_details` TEXT both fail to
parse as JSON, while `step_results` is NULL. -/
def degradedRow : Row :=
  { mkRow "deg" "SN1" 5 1 with
    steps_summary := Blob.bad "corrupt1"
    test_details := Blob.bad "corrupt2" }

/-- C3 (counterexample): reading a row whose serialized `step_results`
fails to parse does NOT succeed — `row_to_item` evaluates
`json.loads(r["step_results"])` with no `try`/`except` (main.py line 307),
so the `JSONDecodeError` escapes and the request fails. -/
theorem c3_corrupt_step_results_fails :
    badStepResultsRow.step_results = Blob.bad "corrupt"
    ∧ row_to_item badStepResultsRow = none := ⟨rfl, rfl⟩

/-- C3 (amended): for rows whose `step_results` blob is parseable (NULL,
empty, or well-formed), the read succeeds, and corruption of
`steps_summary` or `test_details` degrades to `[]` / absent instead of
failing; corruption of a non-empty `step_results` blob fails the read. -/
theorem c3_decode_degrades (r : Row)
    (h : ∀ s, r.step_results = Blob.bad s → s = "") :
    ∃ it, row_to_item r = some it
      ∧ (∀ s, r.steps_summary = Blob.bad s → it.stepsSummary = [])
      ∧ (∀ s, r.test_details = Blob.bad s → it.testDetails = none) := by
  have hsr : ∃ sr, decodeStepResults r.step_results = some sr := by
    cases hc : r.step_results with
    | null => exact ⟨none, rfl⟩
    | ok d => exact ⟨some d, rfl⟩
    | bad s =>
      have hs := h s hc
      subst hs
      exact ⟨none, rfl⟩
  obtain ⟨sr, hsr⟩ := hsr
  refine ⟨_, by rw [row_to_item, hsr], ?_, ?_⟩
  · intro s hs
    simp only [decodeSteps, hs]
  · intro s hs
    simp only [decodeDetails, hs]

/-- C3 witness: the amended statement at a row with corrupted
`steps_summary` and `test_details` and NULL `step_results`. -/
theorem c3_decode_degrades_witness :
    (∀ s, degradedRow.step_results = Blob.bad s → s = "")
    ∧ ∃ it, row_to_item degradedRow = some it
      ∧ (∀ s, degradedRow.steps_summary = Blob.bad s → it.stepsSummary = [])
      ∧ (∀ s, degradedRow.test_details = Blob.bad s → it.testDetails = none) :=
  ⟨fun s hs => by simp [degradedRow, mkRow] at hs,
   c3_decode_degrades degradedRow
     (fun s hs => by simp [degradedRow, mkRow] at hs)⟩

/-- C6: ingest-then-read round-trip. Ingesting a valid payload and reading
it back through `GET /api/records` (no filter, default `limit=50`,
`offset=0`) returns exactly the created record, whose item equals the
payload field-for-field — `stepsSummary` in insertion order, `stepResults`
and `testDetails` verbatim — except that `id` and `createdAt` are
server-assigned and `deviceSerialNumber` is stripped. -/
theorem c6_roundtrip (p : ProductionTestPayload) (tid : String) (t : Nat)
    (h : payloadValid p = true) :
    (get_records [post_production_test p tid t] {} 50 0).items
        = [post_production_test p tid t]
    ∧ row_to_item (post_production_test p tid t) = some
      { id := tid, createdAt := t, startTime := p.startTime,
        endTime := p.endTime, durationSeconds := p.durationSeconds,
        deviceSerialNumber := pyStrip p.deviceSerialNumber,
        deviceName := p.deviceName,
        deviceFirmwareVersion := p.deviceFirmwareVersion,
        deviceBootloaderVersion := p.deviceBootloaderVersion,
        deviceHardwareRevision := p.deviceHardwareRevision,
        overallPassed := p.overallPassed, needRetest := p.needRetest,
        stepsSummary := p.stepsSummary, stepResults := p.stepResults,
        testDetails := p.testDetails } := by
  refine ⟨rfl, ?_⟩
  rcases p with ⟨st, et, ds, sn, dn, fw, bl, hw, op, nr, ss, sr, td⟩
  cases op <;> cases nr <;> cases sr <;> cases td <;> rfl

/-- A concrete payload exercising every field for the C6 witness. -/
def fullPayload : ProductionTestPayload :=
  { startTime := some "2025-01-01T00:00:00Z",
    endTime := some "2025-01-01T00:01:00Z", durationSeconds := some 60,
    deviceSerialNumber := " SN9 ", deviceName := some "dev",
    deviceFirmwareVersion := some "1.0", deviceBootloaderVersion := some "b1",
    deviceHardwareRevision := some "r2", overallPassed := true,
    needRetest := true, stepsSummary := [⟨"s1", "passed"⟩, ⟨"s2", "failed"⟩],
    stepResults := some [("s2", "detail")],
    testDetails := some [("pressure", JsonVal.num 5)] }

/-- C6 witness: the round-trip at a concrete payload. -/
theorem c6_roundtrip_witness :
    payloadValid fullPayload = true
    ∧ ((get_records [post_production_test fullPayload "uuid-1" 42] {} 50 0).items
        = [post_production_test fullPayload "uuid-1" 42]
    ∧ row_to_item (post_production_test fullPayload "uuid-1" 42) = some
      { id := "uuid-1", createdAt := 42, startTime := fullPayload.startTime,
        endTime := fullPayload.endTime,
        durationSeconds := fullPayload.durationSeconds,
        deviceSerialNumber := pyStrip fullPayload.deviceSerialNumber,
        deviceName := fullPayload.deviceName,
        deviceFirmwareVersion := fullPayload.deviceFirmwareVersion,
        deviceBootloaderVersion := fullPayload.deviceBootloaderVersion,
        deviceHardwareRevision := fullPayload.deviceHardwareRevision,
        overallPassed := fullPayload.overallPassed,
        needRetest := fullPayload.needRetest,
        stepsSummary := fullPayload.stepsSummary,
        stepResults := fullPayload.stepResults,
        testDetails := fullPayload.testDetails }) :=
  ⟨rfl, c6_roundtrip fullPayload "uuid-1" 42 rfl⟩

/-- A successful `List.lookup` pinpoints a member of the association list. -/
theorem lookup_mem {vs : Viewers} {k : String} {t : Int}
    (h : vs.lookup k = some t) : (k, t) ∈ vs := by
  induction vs with
  | nil => simp [List.lookup] at h
  | cons p rest ih =>
    rw [List.lookup] at h
    cases hk : k == p.1
    · rw [hk] at h
      exact List.mem_cons_of_mem _ (ih h)
    · rw [hk] at h
      simp only [Option.some.injEq] at h
      have hkey : k = p.1 := eq_of_beq hk
      subst hkey
      subst h
      exact List.mem_cons_self _ _

/-- Upserting the caller's heartbeat leaves the pair `(ip, t)` in the map:
Python `_viewers[ip] = now` either overwrites the existing entry or
appends a new one. -/
theorem mem_upsertViewer_self (vs : Viewers) (ip : String) (t : Int) :
    (ip, t) ∈ upsertViewer vs ip t := by
  unfold upsertViewer
  by_cases hl : (vs.lookup ip).isSome
  · rw [if_pos hl]
    obtain ⟨v, hv⟩ := Option.isSome_iff_exists.mp hl
    refine List.mem_map.mpr ⟨(ip, v), lookup_mem hv, ?_⟩
    simp
  · rw [if_neg hl]
    exact List.mem_append_right _ (List.mem_singleton.mpr rfl)

/-- Upserting the caller's heartbeat does not touch entries under other
keys. -/
theorem mem_of_mem_upsertViewer_of_ne {vs : Viewers} {ip : String} {t : Int}
    {q : String × Int} (hq : q ∈ upsertViewer vs ip t) (hne : q.1 ≠ ip) :
    q ∈ vs := by
  unfold upsertViewer at hq
  by_cases hl : (vs.lookup ip).isSome
  · rw [if_pos hl] at hq
    obtain ⟨p, hp, hfq⟩ := List.mem_map.mp hq
    by_cases hip : p.1 = ip
    · rw [if_pos hip] at hfq
      exact absurd (show q.1 = ip by rw [← hfq]; exact hip) hne
    · rw [if_neg hip] at hfq
      exact hfq ▸ hp
  · rw [if_neg hl] at hq
    rcases List.mem_append.mp hq with h | h
    · exact h
    · exact absurd (congrArg Prod.fst (List.mem_singleton.mp h)) hne

/-- C10: `api_viewers` upserts the caller's heartbeat before purging, so
the caller's pair `(ip, now)` survives the purge (its age is `0`), the
returned `count` is at least `1`, and the post-call map holds exactly the
post-upsert entries whose age does not exceed the timeout. -/
theorem c10_caller_survives (vs : Viewers) (ip : String) (now : Int) :
    (ip, now) ∈ (api_viewers vs ip now).viewers
    ∧ 1 ≤ (api_viewers vs ip now).count
    ∧ (∀ q : String × Int, q ∈ (api_viewers vs ip now).viewers ↔
        (q ∈ upsertViewer vs ip now ∧ now - q.2 ≤ VIEWER_TIMEOUT_SEC)) := by
  have hmem : (ip, now) ∈ (api_viewers vs ip now).viewers := by
    refine List.mem_filter.mpr ⟨mem_upsertViewer_self vs ip now, ?_⟩
    rw [show now - (ip, now).2 = 0 from Int.sub_self now]
    rfl
  refine ⟨hmem, ?_, ?_⟩
  · have hne := List.ne_nil_of_mem hmem
    exact List.length_pos.mpr hne
  · intro q
    rw [show (api_viewers vs ip now).viewers = (upsertViewer vs ip now).filter
      (fun p => decide (now - p.2 ≤ VIEWER_TIMEOUT_SEC)) from rfl]
    simp [List.mem_filter]

/-- C8: a non-caller identifier all of whose heartbeats are older than the
60-second timeout at call time is purged: it appears neither in the
post-call map (so it contributes nothing to `count`, which equals the
remaining-entry count) nor in `ips`; and `ips` holds at most 10
identifiers, the key projection of a permutation of the live map sorted by
most-recent heartbeat first. -/
theorem c8_stale_heartbeat_evicted (vs : Viewers) (ip idv : String)
    (now : Int)
    (hstale : ∀ t, (idv, t) ∈ vs → VIEWER_TIMEOUT_SEC < now - t)
    (hne : idv ≠ ip) :
    idv ∉ ((api_viewers vs ip now).viewers.map Prod.fst)
    ∧ idv ∉ (api_viewers vs ip now).ips
    ∧ (api_viewers vs ip now).count = (api_viewers vs ip now).viewers.length
    ∧ (api_viewers vs ip now).ips.length ≤ 10
    ∧ ∃ ps, ps.Perm (api_viewers vs ip now).viewers
        ∧ List.Sorted recentRel ps
        ∧ (api_viewers vs ip now).ips = (ps.map Prod.fst).take 10 := by
  have hnotin : ∀ q : String × Int, q ∈ (api_viewers vs ip now).viewers →
      q.1 ≠ idv := by
    intro q hq hfst
    have hq' := List.mem_filter.mp hq
    have hvs : q ∈ vs :=
      mem_of_mem_upsertViewer_of_ne hq'.1 (by rw [hfst]; exact hne)
    have hold : VIEWER_TIMEOUT_SEC < now - q.2 := by
      have : (idv, q.2) ∈ vs := by
        rw [← hfst]
        exact hvs
      exact hstale q.2 this
    have hyoung : now - q.2 ≤ VIEWER_TIMEOUT_SEC := of_decide_eq_true hq'.2
    exact absurd hyoung (not_le.mpr hold)
  refine ⟨?_, ?_, rfl, ?_, ?_⟩
  · intro hmem
    obtain ⟨q, hq, hfst⟩ := List.mem_map.mp hmem
    exact hnotin q hq hfst
  · intro hmem
    have hmem' : idv ∈ (((api_viewers vs ip now).viewers.insertionSort
        recentRel).map Prod.fst) := List.mem_of_mem_take hmem
    obtain ⟨q, hq, hfst⟩ := List.mem_map.mp hmem'
    exact hnotin q
      ((List.perm_insertionSort recentRel _).mem_iff.mp hq) hfst
  · exact List.length_take_le _ _
  · exact ⟨(api_viewers vs ip now).viewers.insertionSort recentRel,
      List.perm_insertionSort recentRel _,
      List.sorted_insertionSort recentRel _, rfl⟩

/-- C8 witness: on the map holding a 100-second-old heartbeat for "old"
and a fresh one for "fresh", a call from "me" at `now = 100` evicts
"old". -/
theorem c8_stale_heartbeat_evicted_witness :
    (∀ t : Int, ("old", t) ∈ ([("old", 0), ("fresh", 90)] : Viewers) →
      VIEWER_TIMEOUT_SEC < 100 - t)
    ∧ ("old" : String) ≠ "me"
    ∧ ("old" : String) ∉
        ((api_viewers [("old", 0), ("fresh", 90)] "me" 100).viewers.map
          Prod.fst)
    ∧ ("old" : String) ∉ (api_viewers [("old", 0), ("fresh", 90)] "me" 100).ips
    ∧ (api_viewers [("old", 0), ("fresh", 90)] "me" 100).count
        = (api_viewers [("old", 0), ("fresh", 90)] "me" 100).viewers.length
    ∧ (api_viewers [("old", 0), ("fresh", 90)] "me" 100).ips.length ≤ 10
    ∧ ∃ ps, ps.Perm (api_viewers [("old", 0), ("fresh", 90)] "me" 100).viewers
        ∧ List.Sorted recentRel ps
        ∧ (api_viewers [("old", 0), ("fresh", 90)] "me" 100).ips
            = (ps.map Prod.fst).take 10 := by
  have hstale : ∀ t : Int, ("old", t) ∈ ([("old", 0), ("fresh", 90)] : Viewers)
      → VIEWER_TIMEOUT_SEC < 100 - t := by
    intro t ht
    simp only [List.mem_cons, List.not_mem_nil, or_false,
      Prod.mk.injEq] at ht
    rcases ht with ⟨-, rfl⟩ | ⟨h1, -⟩
    · decide
    · exact absurd h1 (by decide)
  have hne : ("old" : String) ≠ "me" := by decide
  obtain ⟨a, b, c, d, e⟩ :=
    c8_stale_heartbeat_evicted [("old", 0), ("fresh", 90)] "me" "old" 100
      hstale hne
  exact ⟨hstale, hne, a, b, c, d, e⟩

/-- Concatenating successive `LIMIT`/`OFFSET` pages of a list is a prefix
of the list: page `i` is `(l.drop (i * limit)).take limit`. -/
theorem pages_eq_take (l : List Row) (limit : Nat) :
    ∀ n, (List.range n).flatMap (fun i => (l.drop (i * limit)).take limit)
      = l.take (n * limit) := by
  intro n
  induction n with
  | zero => simp
  | succ n ih =>
    rw [List.range_succ, List.flatMap_append, ih, List.flatMap_cons,
      List.flatMap_nil, List.append_nil, Nat.succ_mul, List.take_add]

/-- C7: paginating `GET /api/records` with a fixed `limit` and offsets
`0, limit, 2*limit, ...` until `n * limit ≥ total` (no intervening
writes) concatenates to exactly the full filtered row set ordered by
`created_at` descending — `total` rows, no duplicates (given the stored
`id`s are distinct, the table's PRIMARY KEY invariant), no omissions —
and an `offset` at or beyond `total` yields an empty `items` page with
the same `total`, not an error. -/
theorem c7_pagination_complete (store : List Row) (f : QueryFilter)
    (limit n offset : Nat)
    (hn : (get_records store f limit 0).total ≤ n * limit)
    (hnd : ((store.filter (recordsMatches f)).map (fun r => r.id)).Nodup) :
    ((List.range n).flatMap (fun i => pageRows store f limit (i * limit))
        = sortByCreatedDesc (store.filter (recordsMatches f)))
    ∧ (((List.range n).flatMap
          (fun i => pageRows store f limit (i * limit))).length
        = (get_records store f limit 0).total)
    ∧ ((((List.range n).flatMap
          (fun i => pageRows store f limit (i * limit))).map
        (fun r => r.id)).Nodup)
    ∧ (List.Sorted createdDescRel
        ((List.range n).flatMap (fun i => pageRows store f limit (i * limit))))
    ∧ ((get_records store f limit 0).total ≤ offset →
        (get_records store f limit offset).items = []
        ∧ (get_records store f limit offset).total
            = (get_records store f limit 0).total) := by
  have hperm : (sortByCreatedDesc (store.filter (recordsMatches f))).Perm
      (store.filter (recordsMatches f)) :=
    List.perm_insertionSort _ _
  have hlen : (sortByCreatedDesc (store.filter (recordsMatches f))).length
      = (store.filter (recordsMatches f)).length := hperm.length_eq
  have hcat : (List.range n).flatMap
      (fun i => pageRows store f limit (i * limit))
      = (sortByCreatedDesc (store.filter (recordsMatches f))).take
          (n * limit) :=
    pages_eq_take (sortByCreatedDesc (store.filter (recordsMatches f)))
      limit n
  have hfull : (sortByCreatedDesc (store.filter (recordsMatches f))).take
      (n * limit) = sortByCreatedDesc (store.filter (recordsMatches f)) :=
    List.take_of_length_le (by rw [hlen]; exact hn)
  have hmain := hcat.trans hfull
  refine ⟨hmain, ?_, ?_, ?_, ?_⟩
  · rw [hmain, hlen]
    rfl
  · rw [hmain]
    exact ((hperm.map (fun r => r.id)).nodup_iff).mpr hnd
  · rw [hmain]
    exact List.sorted_insertionSort createdDescRel _
  · intro hoff
    refine ⟨?_, rfl⟩
    have hdrop : (sortByCreatedDesc (store.filter (recordsMatches f))).drop
        offset = [] :=
      List.drop_eq_nil_of_le (by rw [hlen]; exact hoff)
    show ((sortByCreatedDesc (store.filter (recordsMatches f))).drop
        offset).take limit = []
    rw [hdrop, List.take_nil]

/-- Three one-device records for the C7 witness store. -/
def pageStore : List Row :=
  [mkRow "a" "S1" 1 1, mkRow "b" "S2" 2 0, mkRow "c" "S3" 3 1]

/-- C7 witness: paginating the three-record store with `limit = 2` over
two pages reconstructs the whole sorted listing, and `offset = 5` past
the total yields an empty page. -/
theorem c7_pagination_complete_witness :
    ((get_records pageStore {} 2 0).total ≤ 2 * 2
    ∧ ((pageStore.filter (recordsMatches {})).map (fun r => r.id)).Nodup)
    ∧ (((List.range 2).flatMap (fun i => pageRows pageStore {} 2 (i * 2))
        = sortByCreatedDesc (pageStore.filter (recordsMatches {})))
    ∧ (((List.range 2).flatMap (fun i => pageRows pageStore {} 2 (i * 2))).length
        = (get_records pageStore {} 2 0).total)
    ∧ ((((List.range 2).flatMap (fun i => pageRows pageStore {} 2 (i * 2))).map
        (fun r => r.id)).Nodup)
    ∧ (List.Sorted createdDescRel
        ((List.range 2).flatMap (fun i => pageRows pageStore {} 2 (i * 2))))
    ∧ ((get_records pageStore {} 2 0).total ≤ 5 →
        (get_records pageStore {} 2 5).items = []
        ∧ (get_records pageStore {} 2 5).total
            = (get_records pageStore {} 2 0).total)) :=
  ⟨⟨by decide, by decide⟩,
    c7_pagination_complete pageStore {} 2 2 5 (by decide) (by decide)⟩
